import Mathlib

/-!
# Verification of the STOCK_MONITORING pipeline (src/src/main.rs)

Shallow embedding of the core pipeline of `main.rs`:
parsing of the Alpha Vantage JSON response (`parse_alpha_vantage_response`),
feature/label construction (`preprocess_data`), the distinct-class guard in
`main`, and accuracy computation (`calculate_accuracy`).

Modelling conventions:
* Rust `f64` prices are modelled as `ℚ` (exact rationals). All claims under
  study concern comparisons, defaults and exact ratios `k/n` with small
  integers, where IEEE binary64 agrees with the rational model
  (`x < y`, `x/x = 1`, exact small ratios).
* Rust `u64` volumes are modelled as `Nat` with the `< 2^64` range check in
  the string parser where Rust performs it.
* `serde_json::Value` is modelled by the inductive `Json`; `value[key]`
  indexing returns `Json.null` on a missing key or a non-object, exactly as
  serde_json's `Index` impl does.
* A Rust panic is modelled as `Option.none`; fallible functions returning
  `Result<T, CustomError>` are modelled with `Except CustomError`.
* The external `linfa` fit/predict functions are not part of this repository;
  the pipeline `mainPipeline` is parametrised over them.
-/

namespace StockMonitoring

/-- `struct StockData` from main.rs: one parsed observation. -/
structure StockData where
  symbol : String
  price : ℚ
  volume : Nat
  timestamp : String
deriving Repr, DecidableEq

/-- `enum CustomError` from main.rs. Note: there is no `ShapeMismatch`,
`InsufficientData`, `LengthMismatch` or `DimensionMismatch` variant in the
source; the only variants are the four below. -/
inductive CustomError where
  | ReqwestError
  | ParseError (msg : String)
  | NotEnoughClasses
  | NaiveBayesError
deriving Repr, DecidableEq

/-- Model of `serde_json::Value`. -/
inductive Json where
  | null
  | bool (b : Bool)
  | num (q : ℚ)
  | str (s : String)
  | arr (elems : List Json)
  | obj (entries : List (String × Json))

/-- `value[key]` on a `serde_json::Value`: member lookup on objects,
`Null` otherwise (serde_json's `Index<&str>` impl). -/
def Json.index (j : Json) (key : String) : Json :=
  match j with
  | .obj entries => (((entries.find? (fun e => e.1 == key)).map (fun e => e.2)).getD .null)
  | _ => .null

/-- `Value::as_str`. -/
def Json.asStr : Json → Option String
  | .str s => some s
  | _ => none

/-- `Value::as_object` (the object's key/value pairs). -/
def Json.asObject : Json → Option (List (String × Json))
  | .obj entries => some entries
  | _ => none

/-- Value of a digit string read left to right. -/
def natOfDigits (ds : List Char) : Nat :=
  ds.foldl (fun a c => a * 10 + (c.toNat - 48)) 0

/-- Models Rust `str::parse::<f64>()` on decimal / scientific literals,
returning the exact rational value: optional sign, integer digits and/or a
fractional part, optional exponent, whole string consumed. (The model keeps
the exact rational instead of rounding to binary64, and omits the special
forms `inf`/`NaN`, which never arise in the claims under study.) -/
def parseF64 (s : String) : Option ℚ :=
  let cs := s.toList
  let p1 : Bool × List Char :=
    match cs with
    | '+' :: r => (false, r)
    | '-' :: r => (true, r)
    | _ => (false, cs)
  let p2 := p1.2.span (fun c => c.isDigit)
  let p3 : List Char × List Char :=
    match p2.2 with
    | '.' :: r => ((r.span (fun c => c.isDigit)).1, (r.span (fun c => c.isDigit)).2)
    | other => ([], other)
  if p2.1.isEmpty && p3.1.isEmpty then none
  else
    let mant : ℚ := (natOfDigits p2.1 : ℚ) + (natOfDigits p3.1 : ℚ) / ((10 : ℚ) ^ p3.1.length)
    let signed : ℚ := if p1.1 then -mant else mant
    match p3.2 with
    | [] => some signed
    | c :: r =>
      if c == 'e' || c == 'E' then
        let q1 : Bool × List Char :=
          match r with
          | '+' :: rr => (false, rr)
          | '-' :: rr => (true, rr)
          | _ => (false, r)
        let q2 := q1.2.span (fun ch => ch.isDigit)
        if q2.1.isEmpty || !q2.2.isEmpty then none
        else
          let e : ℤ := if q1.1 then -(natOfDigits q2.1 : ℤ) else (natOfDigits q2.1 : ℤ)
          some (signed * (10 : ℚ) ^ e)
      else none

/-- Models Rust `str::parse::<u64>()`: optional `+`, at least one digit,
value below `2^64`. -/
def parseU64 (s : String) : Option Nat :=
  let cs := s.toList
  let cs1 := match cs with
    | '+' :: r => r
    | _ => cs
  if cs1.isEmpty || !cs1.all (fun c => c.isDigit) then none
  else
    let n := natOfDigits cs1
    if n < 2 ^ 64 then some n else none

/-- Body of the `for (timestamp, data) in time_series` loop in
`parse_alpha_vantage_response`: builds one `StockData` from one entry, with
the `?`-propagated `ok_or` failures and the `unwrap_or` numeric defaults. -/
def parseEntry (response : Json) (e : String × Json) : Except CustomError StockData :=
  match ((response.index "Meta Data").index "2. Symbol").asStr with
  | none => .error (.ParseError "Missing symbol")
  | some sym =>
    match (e.2.index "1. open").asStr with
    | none => .error (.ParseError "Missing price")
    | some priceStr =>
      match (e.2.index "5. volume").asStr with
      | none => .error (.ParseError "Missing volume")
      | some volStr =>
        .ok { symbol := sym
              price := (parseF64 priceStr).getD 0
              volume := (parseU64 volStr).getD 0
              timestamp := e.1 }

/-- `parse_alpha_vantage_response` from main.rs: requires the
`"Time Series (1min)"` container to be an object, then maps `parseEntry`
over its entries in order, stopping at the first failure (the `?` in the
loop body). -/
def parse_alpha_vantage_response (response : Json) : Except CustomError (List StockData) :=
  match (response.index "Time Series (1min)").asObject with
  | none => .error (.ParseError "Invalid JSON format")
  | some time_series => time_series.mapM (parseEntry response)

/-- Price of `data[i]` (used only at indices `i < data.length`). -/
def priceAt (data : List StockData) (i : Nat) : ℚ :=
  ((data[i]?).map (fun s => s.price)).getD 0

/-- Volume of `data[i]` as a float (used only at indices `i < data.length`). -/
def volumeAt (data : List StockData) (i : Nat) : ℚ :=
  ((data[i]?).map (fun s => (s.volume : ℚ))).getD 0

/-- The `features` vector of `preprocess_data`:
`data.iter().map(|stock| vec![stock.price, stock.volume as f64])`. -/
def featuresOf (data : List StockData) : List (List ℚ) :=
  data.map (fun stock => [stock.price, (stock.volume : ℚ)])

/-- The `target` vector of `preprocess_data`:
`for i in 0..data.len() - 1 { push(if data[i].price < data[i+1].price,
1, else 0) }`. -/
def targetOf (data : List StockData) : List Nat :=
  (List.range (data.length - 1)).map
    (fun i => if priceAt data i < priceAt data (i + 1) then 1 else 0)

/-- `preprocess_data` from main.rs. On an empty input the Rust function
panics: the loop bound `data.len() - 1` underflows unsigned arithmetic
(overflow panic in debug; in release the wrapped bound makes the first
iteration index `data[0]` out of bounds), and `features[0].len()` also
indexes an empty vector. The panic is modelled as `none`. For non-empty
input it returns the full feature matrix (one row per observation) and the
length `data.len() - 1` target vector. -/
def preprocess_data (data : List StockData) : Option (List (List ℚ) × List Nat) :=
  if data.isEmpty then none
  else some (featuresOf data, targetOf data)

/-- `calculate_accuracy` from main.rs:
`predictions.iter().zip(target.iter()).filter(pred == actual).count()
 / target.len()`. The `zip` truncates to the shorter of the two vectors;
the divisor is always `target.len()`. (In Rust the quotient is an `f64`
and `0/0` is `NaN`; in `ℚ` division by zero yields `0`. No claim under
study evaluates the empty-target case.) -/
def calculate_accuracy (predictions target : List Nat) : ℚ :=
  (((predictions.zip target).filter (fun pa => pa.1 == pa.2)).length : ℚ) / (target.length : ℚ)

/-- Number of distinct values in `target`:
`let distinct_classes: HashSet<_> = target.iter().collect();` in `main`. -/
def distinctClassCount (target : List Nat) : Nat :=
  target.dedup.length

/-- The computational core of `main` after the (excluded) network fetch,
parametrised over the external `linfa` fit and predict functions
(`GaussianNb::params().fit` and `model.predict`), which are not code of
this repository: `preprocess_data`, then the distinct-class guard
(`return Err(CustomError::NotEnoughClasses)` when fewer than 2 classes),
then `train_model` on the FULL feature matrix and target, then `predict`
on the same full feature matrix, then `calculate_accuracy` of the
predictions against the target. `none` models the panic propagated out of
`preprocess_data`. -/
def mainPipeline {M : Type} (fitFn : List (List ℚ) → List Nat → Except CustomError M)
    (predictFn : M → List (List ℚ) → List Nat)
    (data : List StockData) : Option (Except CustomError ℚ) :=
  match preprocess_data data with
  | none => none
  | some (features, target) =>
    some (
      if distinctClassCount target < 2 then .error .NotEnoughClasses
      else
        match fitFn features target with
        | .error e => .error e
        | .ok model => .ok (calculate_accuracy (predictFn model features) target))

/-! ## Basic lemmas about the builder -/

theorem featuresOf_length (data : List StockData) :
    (featuresOf data).length = data.length := by
  simp [featuresOf]

theorem targetOf_length (data : List StockData) :
    (targetOf data).length = data.length - 1 := by
  simp [targetOf]

theorem featuresOf_getElem (data : List StockData) (i : Nat) (hi : i < data.length) :
    (featuresOf data)[i]? = some [priceAt data i, volumeAt data i] := by
  have hd : data[i]? = some (data[i]) := List.getElem?_eq_getElem hi
  simp [featuresOf, List.getElem?_map, hd, priceAt, volumeAt]

theorem targetOf_getElem (data : List StockData) (i : Nat) (hi : i < data.length - 1) :
    (targetOf data)[i]? = some (if priceAt data i < priceAt data (i + 1) then 1 else 0) := by
  simp [targetOf, List.getElem?_map, List.getElem?_range hi]

theorem preprocess_data_eq_of_ne_nil (data : List StockData) (h : data ≠ []) :
    preprocess_data data = some (featuresOf data, targetOf data) := by
  unfold preprocess_data
  rw [if_neg]
  simpa [List.isEmpty_iff] using h

/-! ## Shared concrete observations (the spec's section-8 scenario) -/

def obsA : StockData := { symbol := "IBM", price := 100, volume := 10, timestamp := "t0" }
def obsB : StockData := { symbol := "IBM", price := 101, volume := 12, timestamp := "t1" }
def obsC : StockData := { symbol := "IBM", price := 99, volume := 8, timestamp := "t2" }
def obsD : StockData := { symbol := "IBM", price := 102, volume := 20, timestamp := "t3" }

/-! ## Claim C1 -/

/-- Claim C1: for every observation sequence of length at least 2,
`preprocess_data` returns a feature matrix with exactly `N` rows, where row
`i` is `[price i, volume i as a float]`, and a label vector of length
`N - 1` whose entry `i` is `1` exactly when `price i < price (i+1)`
(strict), and `0` otherwise. -/
theorem c1_preprocess_build (data : List StockData) (h : 2 ≤ data.length) :
    ∃ F L, preprocess_data data = some (F, L) ∧
      F.length = data.length ∧
      (∀ i, i < data.length → F[i]? = some [priceAt data i, volumeAt data i]) ∧
      L.length = data.length - 1 ∧
      (∀ i, i < data.length - 1 →
        (L[i]? = some 1 ↔ priceAt data i < priceAt data (i + 1)) ∧
        (L[i]? = some 0 ↔ ¬ priceAt data i < priceAt data (i + 1))) := by
  have hne : data ≠ [] := by
    intro hnil
    rw [hnil] at h
    exact absurd h (by decide)
  refine ⟨featuresOf data, targetOf data, preprocess_data_eq_of_ne_nil data hne,
    featuresOf_length data, fun i hi => featuresOf_getElem data i hi,
    targetOf_length data, fun i hi => ?_⟩
  rw [targetOf_getElem data i hi]
  by_cases hc : priceAt data i < priceAt data (i + 1) <;> simp [hc]

theorem c1_witness :
    ∃ F L, preprocess_data [obsA, obsB] = some (F, L) ∧
      F.length = ([obsA, obsB] : List StockData).length ∧
      (∀ i, i < ([obsA, obsB] : List StockData).length →
        F[i]? = some [priceAt [obsA, obsB] i, volumeAt [obsA, obsB] i]) ∧
      L.length = ([obsA, obsB] : List StockData).length - 1 ∧
      (∀ i, i < ([obsA, obsB] : List StockData).length - 1 →
        (L[i]? = some 1 ↔ priceAt [obsA, obsB] i < priceAt [obsA, obsB] (i + 1)) ∧
        (L[i]? = some 0 ↔ ¬ priceAt [obsA, obsB] i < priceAt [obsA, obsB] (i + 1))) :=
  c1_preprocess_build [obsA, obsB] (by decide)

/-! ## Claim C10 -/

/-- Claim C10: on the empty observation sequence `preprocess_data` reaches
its panic branch (the loop bound `data.len() - 1` underflows and `data[0]` /
`features[0]` index an empty vector) instead of returning a value or a typed
error; the panic is `none` in the model, so the builder is not total on
length-0 input. -/
theorem c10_preprocess_empty_panics : preprocess_data [] = none := rfl

/-! ## Claim C3 -/

/-- Claim C3 counterexample: on a length-1 observation sequence (fewer than
2 elements) `preprocess_data` does not fail at all: it returns a
feature/label pair — one feature row and an empty label vector. No
`InsufficientData` variant even exists in `CustomError`. -/
theorem c3_counterexample :
    preprocess_data [obsA] = some ([[(100 : ℚ), (10 : ℚ)]], []) := by decide

/-- Claim C3 amended: `preprocess_data` performs no minimum-length check and
has no `InsufficientData` error. On a length-1 input it returns the pair
(one feature row, empty label vector); on a length-0 input it panics
(modelled as `none`, see C10). -/
theorem c3_amended (o : StockData) :
    preprocess_data [o] = some ([[o.price, (o.volume : ℚ)]], []) ∧
    preprocess_data [] = none :=
  ⟨rfl, rfl⟩

theorem c3_witness :
    preprocess_data [obsA] = some ([[obsA.price, (obsA.volume : ℚ)]], []) ∧
    preprocess_data [] = none :=
  c3_amended obsA

/-! ## Claim C9 -/

theorem zip_self_filter_eq (p : List Nat) :
    ((p.zip p).filter (fun pa => pa.1 == pa.2)) = p.zip p := by
  induction p with
  | nil => rfl
  | cons a t ih => simp [List.zip_cons_cons, List.filter_cons, ih]

/-- Claim C9: for every non-empty label vector `p`, the accuracy of `p`
against itself is exactly `1` (every zipped pair matches, so the count
equals the length and the quotient is `n / n = 1`; IEEE `f64` division
agrees, `x / x = 1.0` for finite non-zero `x`). -/
theorem c9_accuracy_self (p : List Nat) (h : p ≠ []) : calculate_accuracy p p = 1 := by
  have hn : (p.length : ℚ) ≠ 0 := by
    simpa using h
  unfold calculate_accuracy
  rw [zip_self_filter_eq, List.length_zip, min_self]
  exact div_self hn

theorem c9_witness : calculate_accuracy [1, 0, 1] [1, 0, 1] = 1 :=
  c9_accuracy_self [1, 0, 1] (by decide)

/-! ## Claims C2 and C5: silent truncation in evaluation -/

theorem zip_take_left {α β : Type} (l1 : List α) (l2 : List β) :
    (l1.take l2.length).zip l2 = l1.zip l2 := by
  induction l1 generalizing l2 with
  | nil => simp
  | cons a t ih =>
    cases l2 with
    | nil => simp
    | cons b u => simp [List.zip_cons_cons, ih]

theorem mainPipeline_run {M : Type}
    (fitFn : List (List ℚ) → List Nat → Except CustomError M)
    (predictFn : M → List (List ℚ) → List Nat)
    (data : List StockData) (m : M) (hne : data ≠ [])
    (hguard : ¬ distinctClassCount (targetOf data) < 2)
    (hfit : fitFn (featuresOf data) (targetOf data) = .ok m) :
    mainPipeline fitFn predictFn data
      = some (.ok (calculate_accuracy (predictFn m (featuresOf data)) (targetOf data))) := by
  unfold mainPipeline
  rw [preprocess_data_eq_of_ne_nil data hne]
  dsimp only
  rw [if_neg hguard, hfit]

/-- Claim C2 counterexample: the pipeline does NOT restrict the feature
matrix to its first `N - 1` rows and does not fail on the mismatch. On the
spec's four-observation scenario, with external fit/predict stand-ins (fit
succeeds, predict returns one label `1` per feature row), `mainPipeline`
hands all 4 feature rows to fit and predict against the 3 labels and
returns the numeric accuracy `2/3` — no `ShapeMismatch` failure occurs
(no such variant even exists in `CustomError`). -/
theorem c2_counterexample :
    mainPipeline (fun _ _ => Except.ok ()) (fun _ features => features.map (fun _ => 1))
        [obsA, obsB, obsC, obsD] = some (.ok (2 / 3)) ∧
    (featuresOf [obsA, obsB, obsC, obsD]).length = 4 ∧
    (targetOf [obsA, obsB, obsC, obsD]).length = 3 := by
  refine ⟨?_, by decide, by decide⟩
  rw [mainPipeline_run (fun _ _ => Except.ok ()) (fun _ features => features.map (fun _ => 1))
    [obsA, obsB, obsC, obsD] () (by decide) (by decide) rfl]
  have hz : ((((featuresOf [obsA, obsB, obsC, obsD]).map (fun _ => (1 : Nat))).zip
      (targetOf [obsA, obsB, obsC, obsD])).filter (fun pa => pa.1 == pa.2)).length = 2 := by
    decide
  have hl : (targetOf [obsA, obsB, obsC, obsD]).length = 3 := by decide
  unfold calculate_accuracy
  rw [hz, hl]
  norm_num

/-- Claim C2 amended: `main` hands the FULL `N`-row feature matrix (not the
first `N - 1` rows) to training and prediction while the label vector has
length `N - 1`; whenever fit succeeds the pipeline returns a numeric
accuracy, in which `calculate_accuracy`'s `zip` silently truncates the
predictions to the label count — it never fails with any shape error
(`CustomError` has no `ShapeMismatch` variant). -/
theorem c2_amended {M : Type}
    (fitFn : List (List ℚ) → List Nat → Except CustomError M)
    (predictFn : M → List (List ℚ) → List Nat)
    (data : List StockData) (m : M)
    (hlen : 2 ≤ data.length)
    (hguard : 2 ≤ distinctClassCount (targetOf data))
    (hfit : fitFn (featuresOf data) (targetOf data) = .ok m) :
    mainPipeline fitFn predictFn data
      = some (.ok (calculate_accuracy (predictFn m (featuresOf data)) (targetOf data))) ∧
    (featuresOf data).length = data.length ∧
    (targetOf data).length = data.length - 1 ∧
    calculate_accuracy (predictFn m (featuresOf data)) (targetOf data)
      = calculate_accuracy ((predictFn m (featuresOf data)).take (data.length - 1))
          (targetOf data) := by
  have hne : data ≠ [] := by
    intro hnil
    rw [hnil] at hlen
    exact absurd hlen (by decide)
  refine ⟨?_, featuresOf_length data, targetOf_length data, ?_⟩
  · exact mainPipeline_run fitFn predictFn data m hne (by omega) hfit
  · unfold calculate_accuracy
    rw [← targetOf_length data, zip_take_left]

theorem c2_witness :
    mainPipeline (fun _ _ => Except.ok ()) (fun _ features => features.map (fun _ => 0))
        [obsA, obsB, obsC, obsD]
      = some (.ok (calculate_accuracy
          ((featuresOf [obsA, obsB, obsC, obsD]).map (fun _ => 0))
          (targetOf [obsA, obsB, obsC, obsD]))) ∧
    (featuresOf [obsA, obsB, obsC, obsD]).length = ([obsA, obsB, obsC, obsD] : List StockData).length ∧
    (targetOf [obsA, obsB, obsC, obsD]).length = ([obsA, obsB, obsC, obsD] : List StockData).length - 1 ∧
    calculate_accuracy ((featuresOf [obsA, obsB, obsC, obsD]).map (fun _ => 0))
        (targetOf [obsA, obsB, obsC, obsD])
      = calculate_accuracy
          (((featuresOf [obsA, obsB, obsC, obsD]).map (fun _ => 0)).take
            (([obsA, obsB, obsC, obsD] : List StockData).length - 1))
          (targetOf [obsA, obsB, obsC, obsD]) :=
  c2_amended (fun _ _ => Except.ok ()) (fun _ features => features.map (fun _ => 0))
    [obsA, obsB, obsC, obsD] () (by decide) (by decide) rfl

/-- Claim C5 counterexample: `calculate_accuracy` applied to vectors of
different lengths (2 predictions, 3 actual labels) returns the number
`1/3` instead of failing — no `LengthMismatch` variant exists in
`CustomError` and the function's return type is a plain number. -/
theorem c5_counterexample :
    ([1, 0] : List Nat).length ≠ ([1, 1, 1] : List Nat).length ∧
    calculate_accuracy [1, 0] [1, 1, 1] = 1 / 3 := by
  refine ⟨by decide, ?_⟩
  have hz : ((([1, 0] : List Nat).zip [1, 1, 1]).filter (fun pa => pa.1 == pa.2)).length = 1 := by
    decide
  unfold calculate_accuracy
  rw [hz]
  norm_num

/-- Claim C5 amended: on vectors of different lengths `calculate_accuracy`
does not fail: its `zip` silently truncates the predictions to the length
of the actual-label vector (the match count ranges over the common part)
and the divisor stays the actual-label count, so it always returns a
number. -/
theorem c5_amended (predictions target : List Nat)
    (h : predictions.length ≠ target.length) :
    calculate_accuracy predictions target
      = calculate_accuracy (predictions.take target.length) target := by
  unfold calculate_accuracy
  rw [zip_take_left]

theorem c5_witness :
    calculate_accuracy [1, 0] [1, 1, 1]
      = calculate_accuracy (([1, 0] : List Nat).take ([1, 1, 1] : List Nat).length) [1, 1, 1] :=
  c5_amended [1, 0] [1, 1, 1] (by decide)

/-! ## Claim C4 -/

/-- Claim C4: whenever the derived label vector contains fewer than 2
distinct values (for example all labels identical), the pipeline stops with
the `NotEnoughClasses` error (the spec's `InsufficientClasses`) before
training: the result is the error for EVERY choice of external fit/predict
functions, so no model is produced. -/
theorem c4_insufficient_classes {M : Type}
    (fitFn : List (List ℚ) → List Nat → Except CustomError M)
    (predictFn : M → List (List ℚ) → List Nat)
    (data : List StockData) (hne : data ≠ [])
    (h : distinctClassCount (targetOf data) < 2) :
    mainPipeline fitFn predictFn data = some (.error .NotEnoughClasses) := by
  unfold mainPipeline
  rw [preprocess_data_eq_of_ne_nil data hne]
  dsimp only
  rw [if_pos h]

theorem c4_witness :
    mainPipeline (fun _ _ => Except.ok ()) (fun _ features => features.map (fun _ => 1))
        [obsB, obsA] = some (.error .NotEnoughClasses) :=
  c4_insufficient_classes (fun _ _ => Except.ok ()) (fun _ features => features.map (fun _ => 1))
    [obsB, obsA] (by decide) (by decide)

/-! ## Parser lemmas (claims C6, C7, C8) -/

/-- The observation built from one well-shaped time-series entry. -/
def mkObs (sym : String) (e : String × Json) : StockData :=
  { symbol := sym
    price := (parseF64 ((e.2.index "1. open").asStr.getD "")).getD 0
    volume := (parseU64 ((e.2.index "5. volume").asStr.getD "")).getD 0
    timestamp := e.1 }

theorem parseEntry_ok {response : Json} {sym : String} (e : String × Json)
    (hsym : ((response.index "Meta Data").index "2. Symbol").asStr = some sym)
    (hp : (e.2.index "1. open").asStr.isSome)
    (hv : (e.2.index "5. volume").asStr.isSome) :
    parseEntry response e = .ok (mkObs sym e) := by
  obtain ⟨p, hp2⟩ := Option.isSome_iff_exists.mp hp
  obtain ⟨v, hv2⟩ := Option.isSome_iff_exists.mp hv
  unfold parseEntry mkObs
  rw [hsym, hp2, hv2]
  simp [hp2, hv2]

theorem mapM_ok_of_forall_ok {α β : Type} (f : α → Except CustomError β) (g : α → β)
    (l : List α) (h : ∀ a ∈ l, f a = .ok (g a)) :
    l.mapM f = .ok (l.map g) := by
  induction l with
  | nil => rfl
  | cons a t ih =>
    rw [List.mapM_cons, h a (List.mem_cons_self a t),
      ih (fun x hx => h x (List.mem_cons_of_mem a hx))]
    rfl

theorem parse_wellformed {response : Json} {entries : List (String × Json)} {sym : String}
    (hts : (response.index "Time Series (1min)").asObject = some entries)
    (hsym : ((response.index "Meta Data").index "2. Symbol").asStr = some sym)
    (hok : ∀ e ∈ entries, (e.2.index "1. open").asStr.isSome
            ∧ (e.2.index "5. volume").asStr.isSome) :
    parse_alpha_vantage_response response = .ok (entries.map (mkObs sym)) := by
  unfold parse_alpha_vantage_response
  rw [hts]
  exact mapM_ok_of_forall_ok _ _ entries
    (fun e he => parseEntry_ok e hsym (hok e he).1 (hok e he).2)

/-! ## Claim C6 -/

/-- Claim C6: for every well-formed raw input (time-series container is an
object, declared symbol is a string, every entry's price and volume fields
are strings) with at least 2 entries, the parser returns exactly one
observation per entry — the output length equals the number of entries —
and every returned observation's `symbol` equals the declared symbol. -/
theorem c6_parse_count_and_symbol {response : Json} {entries : List (String × Json)}
    {sym : String}
    (hts : (response.index "Time Series (1min)").asObject = some entries)
    (hsym : ((response.index "Meta Data").index "2. Symbol").asStr = some sym)
    (hok : ∀ e ∈ entries, (e.2.index "1. open").asStr.isSome
            ∧ (e.2.index "5. volume").asStr.isSome)
    (hlen : 2 ≤ entries.length) :
    ∃ l, parse_alpha_vantage_response response = .ok l ∧
      l.length = entries.length ∧
      ∀ o ∈ l, o.symbol = sym := by
  refine ⟨entries.map (mkObs sym), parse_wellformed hts hsym hok, by simp, ?_⟩
  intro o ho
  obtain ⟨e, _, rfl⟩ := List.mem_map.mp ho
  rfl

def goodEntry1 : String × Json :=
  ("2023-03-10 16:00:00", .obj [("1. open", .str "123.45"), ("5. volume", .str "1000")])

def goodEntry2 : String × Json :=
  ("2023-03-10 16:01:00", .obj [("1. open", .str "123.50"), ("5. volume", .str "1100")])

def responseGood : Json :=
  .obj [("Meta Data", .obj [("2. Symbol", .str "IBM")]),
        ("Time Series (1min)", .obj [goodEntry1, goodEntry2])]

theorem c6_witness :
    ∃ l, parse_alpha_vantage_response responseGood = .ok l ∧
      l.length = ([goodEntry1, goodEntry2] : List (String × Json)).length ∧
      ∀ o ∈ l, o.symbol = "IBM" :=
  @c6_parse_count_and_symbol responseGood [goodEntry1, goodEntry2] "IBM" rfl rfl
    (by decide) (by decide)

/-! ## Claim C7 -/

/-- Claim C7: when an entry's price or volume field is present as text but
fails numeric parsing, the parser does not error: it substitutes `0.0` for
the price (resp. `0` for the volume) in that observation — the
`unwrap_or(0.0)` / `unwrap_or(0)` defaults — and still returns one
observation per entry. -/
theorem c7_default_on_parse_failure {response : Json} {entries : List (String × Json)}
    {sym : String}
    (hts : (response.index "Time Series (1min)").asObject = some entries)
    (hsym : ((response.index "Meta Data").index "2. Symbol").asStr = some sym)
    (hok : ∀ e ∈ entries, (e.2.index "1. open").asStr.isSome
            ∧ (e.2.index "5. volume").asStr.isSome)
    {j : Nat} {e : String × Json} (hj : entries[j]? = some e) :
    ∃ l, parse_alpha_vantage_response response = .ok l ∧
      l.length = entries.length ∧
      (parseF64 ((e.2.index "1. open").asStr.getD "") = none →
        (l[j]?).map (fun o => o.price) = some 0) ∧
      (parseU64 ((e.2.index "5. volume").asStr.getD "") = none →
        (l[j]?).map (fun o => o.volume) = some 0) := by
  refine ⟨entries.map (mkObs sym), parse_wellformed hts hsym hok, by simp, ?_, ?_⟩
  · intro hnone
    rw [List.getElem?_map, hj]
    simp [mkObs, hnone]
  · intro hnone
    rw [List.getElem?_map, hj]
    simp [mkObs, hnone]

def badEntry : String × Json :=
  ("2023-03-10 16:02:00", .obj [("1. open", .str "abc"), ("5. volume", .str "xyz")])

def responseBadNums : Json :=
  .obj [("Meta Data", .obj [("2. Symbol", .str "IBM")]),
        ("Time Series (1min)", .obj [badEntry])]

theorem c7_witness :
    ∃ l, parse_alpha_vantage_response responseBadNums = .ok l ∧
      l.length = ([badEntry] : List (String × Json)).length ∧
      (l[0]?).map (fun o => o.price) = some 0 ∧
      (l[0]?).map (fun o => o.volume) = some 0 := by
  obtain ⟨l, h1, h2, h3, h4⟩ :=
    @c7_default_on_parse_failure responseBadNums [badEntry] "IBM" rfl rfl (by decide)
      0 badEntry rfl
  exact ⟨l, h1, h2, h3 (by decide), h4 (by decide)⟩

/-! ## Claim C8 -/

theorem parseEntry_not_ok {response : Json} {e : String × Json}
    (h : ((response.index "Meta Data").index "2. Symbol").asStr = none ∨
         (e.2.index "1. open").asStr = none ∨
         (e.2.index "5. volume").asStr = none) :
    ∀ b, parseEntry response e ≠ .ok b := by
  unfold parseEntry
  cases hs : ((response.index "Meta Data").index "2. Symbol").asStr with
  | none => exact fun b hb => Except.noConfusion hb
  | some sym =>
    cases hp : (e.2.index "1. open").asStr with
    | none => exact fun b hb => Except.noConfusion hb
    | some p =>
      cases hv : (e.2.index "5. volume").asStr with
      | none => exact fun b hb => Except.noConfusion hb
      | some v =>
        simp only [hs, hp, hv] at h
        rcases h with h | h | h <;> exact absurd h (by simp)

theorem mapM_error_of_exists_bad {α β : Type} (f : α → Except CustomError β) (l : List α)
    (hshape : ∀ a ∈ l, (∃ b, f a = .ok b) ∨ ∃ msg, f a = .error (.ParseError msg))
    (hbad : ∃ a ∈ l, ∀ b, f a ≠ .ok b) :
    ∃ msg, l.mapM f = .error (.ParseError msg) := by
  induction l with
  | nil => simp at hbad
  | cons a t ih =>
    rcases hshape a (List.mem_cons_self a t) with ⟨b, hb⟩ | ⟨msg, hmsg⟩
    · obtain ⟨x, hx, hxbad⟩ := hbad
      rcases List.mem_cons.mp hx with rfl | hx2
      · exact absurd hb (hxbad b)
      · obtain ⟨msg, hmsg⟩ := ih (fun y hy => hshape y (List.mem_cons_of_mem a hy))
          ⟨x, hx2, hxbad⟩
        refine ⟨msg, ?_⟩
        rw [List.mapM_cons, hb, hmsg]
        rfl
    · refine ⟨msg, ?_⟩
      rw [List.mapM_cons, hmsg]
      rfl

theorem parseEntry_shape (response : Json) (e : String × Json) :
    (∃ b, parseEntry response e = .ok b) ∨
      ∃ msg, parseEntry response e = .error (.ParseError msg) := by
  unfold parseEntry
  cases ((response.index "Meta Data").index "2. Symbol").asStr with
  | none => exact .inr ⟨"Missing symbol", rfl⟩
  | some sym =>
    cases (e.2.index "1. open").asStr with
    | none => exact .inr ⟨"Missing price", rfl⟩
    | some p =>
      cases (e.2.index "5. volume").asStr with
      | none => exact .inr ⟨"Missing volume", rfl⟩
      | some v => exact .inl ⟨_, rfl⟩

/-- Claim C8 counterexample: the symbol field is checked only inside the
per-entry loop, so a response whose time-series container is present but
EMPTY parses to `Ok([])` even though its symbol field is entirely absent —
the parser does not fail with a parse error on every input with an absent
symbol field, refuting the claim as stated. -/
theorem c8_counterexample :
    (((Json.obj [("Time Series (1min)", Json.obj [])]).index "Meta Data").index
        "2. Symbol").asStr = none ∧
    parse_alpha_vantage_response (Json.obj [("Time Series (1min)", Json.obj [])])
      = .ok [] :=
  ⟨rfl, rfl⟩

/-- Claim C8 amended: the parser fails with a `ParseError` when the
time-series container is absent or not an object, or — provided the
container has at least one entry — when the symbol field or any entry's
price or volume field is absent or not a string. (With an empty container
it returns `Ok([])` without ever checking the symbol.) -/
theorem c8_amended (response : Json)
    (h : (response.index "Time Series (1min)").asObject = none ∨
      ∃ entries, (response.index "Time Series (1min)").asObject = some entries ∧
        entries ≠ [] ∧
        (((response.index "Meta Data").index "2. Symbol").asStr = none ∨
          ∃ e ∈ entries, (e.2.index "1. open").asStr = none ∨
            (e.2.index "5. volume").asStr = none)) :
    ∃ msg, parse_alpha_vantage_response response = .error (.ParseError msg) := by
  rcases h with h | ⟨entries, hts, hne, hbad⟩
  · exact ⟨"Invalid JSON format", by unfold parse_alpha_vantage_response; rw [h]⟩
  · unfold parse_alpha_vantage_response
    rw [hts]
    apply mapM_error_of_exists_bad _ _ (fun a _ => parseEntry_shape response a)
    rcases hbad with hsym | ⟨e, he, hef⟩
    · obtain ⟨a, t, rfl⟩ := List.exists_cons_of_ne_nil hne
      exact ⟨a, List.mem_cons_self a t, parseEntry_not_ok (.inl hsym)⟩
    · exact ⟨e, he, parseEntry_not_ok (.inr hef)⟩

theorem c8_witness :
    ∃ msg, parse_alpha_vantage_response Json.null = .error (.ParseError msg) :=
  c8_amended Json.null (Or.inl rfl)

end StockMonitoring
